import Mathlib

/-!
Shallow embedding of the RouteSync backend's location-tracking,
route-directory and token subsystems
(src/services/locationService.js, src/services/routeService.js,
src/services/userService.js, the User schema methods), together with
theorems settling the frozen claims about them.

Conventions of the embedding:
* JS numbers used as coordinates/speeds are modelled as `ℚ`;
  timestamps (`Date` values) as `ℕ` milliseconds.
* A possibly-`undefined` JS value is `Option _`; the JS falsy test
  `!x` on a number is `x = undefined ∨ x = 0` (`numFalsy`).
* `throw new Error(msg)` is `Except.error msg` carrying the exact
  message string of the source; the spec's error taxonomy
  (ValidationError / AccessDenied / ...) classifies messages, which is
  how the HTTP boundary of the original distinguishes them (spec §7).
* A mutating service method returns `Except String α × DB`: the
  returned store is the input store on the error paths, because the
  JS code throws before performing any write on those paths.
* MongoDB queries are evaluated against an explicit list-of-documents
  store.  `sort({timestamp:-1})` is insertion sort by the reflected
  relation (tie order between equal keys is unspecified in MongoDB;
  any refinement is faithful).  `$geoNear`'s geodesic distance (in
  meters) is an explicit function parameter `geoDist`, since the
  spherical geometry lives inside the database engine.
-/

namespace RouteSync

/-- Decidable equality of `Except` results, for evaluating the model
on concrete inputs. -/
instance {ε α : Type} [DecidableEq ε] [DecidableEq α] :
    DecidableEq (Except ε α) := fun x y =>
  match x, y with
  | .ok a, .ok b =>
    if h : a = b then .isTrue (by rw [h]) else .isFalse (by simp [h])
  | .error a, .error b =>
    if h : a = b then .isTrue (by rw [h]) else .isFalse (by simp [h])
  | .ok _, .error _ => .isFalse (by simp)
  | .error _, .ok _ => .isFalse (by simp)

/-- One document of the `locations` collection (models/Location.js).
`coordinates` is the GeoJSON pair `[longitude, latitude]`. -/
structure LocationRec where
  busId : Nat
  coordinates : ℚ × ℚ
  speed : ℚ
  heading : ℚ
  accuracy : ℚ
  timestamp : ℕ
deriving DecidableEq

/-- One document of the `buses` collection (the fields this subsystem
reads or writes: models/Bus.js). -/
structure Bus where
  id : Nat
  busNumber : String
  busType : String
  status : String
  routeId : Nat
  operatorId : Option Nat
  currentLocation : Option (ℚ × ℚ)
  lastUpdated : Option Nat
deriving DecidableEq

/-- One document of the `routes` collection (the fields routeService
reads). -/
structure Route where
  id : Nat
  routeNumber : String
deriving DecidableEq

/-- The document store plus the ingest clock (`new Date()` /
`Date.now()` reads `clock`). -/
structure DB where
  locations : List LocationRec
  buses : List Bus
  routes : List Route
  clock : Nat
deriving DecidableEq

/-- The authenticated user object passed into the service methods
(role, scoping ids). -/
structure Actor where
  role : String
  username : String
  assignedBusId : Option Nat
  operatorId : Option Nat
deriving DecidableEq

/-- The `locationData` request body of `updateBusLocation`; every
field may be absent (`undefined`). -/
structure LocationData where
  latitude : Option ℚ
  longitude : Option ℚ
  speed : Option ℚ
  heading : Option ℚ
  accuracy : Option ℚ
  timestamp : Option Nat
deriving DecidableEq

/-- JS falsiness of a possibly-undefined number: `!x` is true for
`undefined` and for `0`. -/
def numFalsy (v : Option ℚ) : Bool :=
  match v with
  | none => true
  | some q => q == 0

/- Exact error message strings thrown by the services. -/

def msgCoordsRequired : String := "Latitude and longitude are required"

def msgLatRange : String := "Latitude must be between -90 and 90"

def msgLonRange : String := "Longitude must be between -180 and 180"

def msgUpdateDenied : String :=
  "Access denied. You can only update your assigned bus location."

def msgLocationDenied : String :=
  "Access denied. You can only access your assigned bus location."

def msgHistoryDenied : String :=
  "Access denied. You can only access your assigned bus location history."

def msgStatsDenied : String :=
  "Access denied. You can only access your assigned bus statistics."

def msgOperatorDenied : String :=
  "Access denied. Bus not found in your operator fleet."

def msgNoLocation : String := "Location not found for this bus"

def msgRouteNotFound : String := "Route not found"

def msgRouteConflict : String :=
  "Cannot delete route. There are buses currently assigned to this route."

def msgBadRefresh : String := "Invalid or expired refresh token"

/-- Spec §7 taxonomy: the AccessDenied class of service errors
(the HTTP boundary recognises them by message). -/
def isAccessDenied (m : String) : Bool :=
  m == msgUpdateDenied || m == msgLocationDenied || m == msgHistoryDenied ||
    m == msgStatsDenied || m == msgOperatorDenied

/-- Spec §7 taxonomy: the ValidationError class of service errors. -/
def isValidationMsg (m : String) : Bool :=
  m == msgCoordsRequired || m == msgLatRange || m == msgLonRange

/-- The driver-scope test used by every method:
`user.role === "driver" && (!user.assignedBusId ||
user.assignedBusId.toString() !== busId)`. -/
def driverDenied (u : Actor) (busId : Nat) : Bool :=
  u.role == "driver" &&
    (match u.assignedBusId with
     | none => true
     | some b => b != busId)

/-- Sort key of `.sort({ timestamp: -1 })`: descending timestamps. -/
def tsDesc (a b : LocationRec) : Prop :=
  b.timestamp ≤ a.timestamp

instance : DecidableRel tsDesc := fun a b => Nat.decLe b.timestamp a.timestamp

instance : IsTotal LocationRec tsDesc :=
  ⟨fun a b => Nat.le_total b.timestamp a.timestamp⟩

instance : IsTrans LocationRec tsDesc :=
  ⟨fun _ _ _ h1 h2 => Nat.le_trans h2 h1⟩

/-- `.sort({ timestamp: -1 })` on a result set. -/
def sortByTsDesc (l : List LocationRec) : List LocationRec :=
  l.insertionSort tsDesc

/-- `getBusLocation` (locationService.js:93-124): driver scope check,
then `Location.findOne({busId}).sort({timestamp:-1})`; throws when the
bus has no history. -/
def getBusLocation (busId : Nat) (user : Option Actor) (db : DB) :
    Except String LocationRec :=
  if (match user with
      | some u => driverDenied u busId
      | none => false) then .error msgLocationDenied
  else
    match (sortByTsDesc (db.locations.filter (fun r => r.busId == busId))).head? with
    | none => .error msgNoLocation
    | some r => .ok r

/-- `updateBusLocation` (locationService.js:129-185).  Order of the
source: destructure with defaults; `!latitude || !longitude` check;
range checks; driver scope check; `Location.create`;
`Bus.findByIdAndUpdate` (which silently does nothing when no bus has
this id). -/
def updateBusLocation (busId : Nat) (d : LocationData) (user : Actor)
    (db : DB) : Except String LocationRec × DB :=
  if numFalsy d.latitude || numFalsy d.longitude then
    (.error msgCoordsRequired, db)
  else if d.latitude.getD 0 < -90 ∨ 90 < d.latitude.getD 0 then
    (.error msgLatRange, db)
  else if d.longitude.getD 0 < -180 ∨ 180 < d.longitude.getD 0 then
    (.error msgLonRange, db)
  else if driverDenied user busId then (.error msgUpdateDenied, db)
  else
    let loc : LocationRec :=
      { busId := busId
        coordinates := (d.longitude.getD 0, d.latitude.getD 0)
        speed := d.speed.getD 0
        heading := d.heading.getD 0
        accuracy := d.accuracy.getD 0
        timestamp := d.timestamp.getD db.clock }
    let buses := db.buses.map (fun b =>
      if b.id == busId then
        { b with currentLocation := some (d.longitude.getD 0, d.latitude.getD 0),
                 lastUpdated := some db.clock }
      else b)
    (.ok loc, { db with locations := db.locations ++ [loc], buses := buses })

/-- Query options of `getBusLocationHistory`, with the source's
defaults (`limit = 50`, `page = 1`).  The model assumes `limit > 0`
and `page ≥ 1` (the mongoose driver treats `limit(0)` as unlimited
and a negative skip as an error, neither of which a valid request
produces). -/
structure HistoryFilters where
  limit : Nat := 50
  page : Nat := 1
  startDate : Option Nat := none
  endDate : Option Nat := none
deriving DecidableEq

/-- Pagination metadata returned by `getBusLocationHistory`. -/
structure Pagination where
  totalLocations : Nat
  totalPages : Nat
  currentPage : Nat
  count : Nat
deriving DecidableEq

/-- Result of `getBusLocationHistory`. -/
structure HistoryResult where
  locations : List LocationRec
  pagination : Pagination
deriving DecidableEq

/-- The optional `timestamp: {$gte: startDate, $lte: endDate}` filter. -/
def inDateRange (f : HistoryFilters) (ts : Nat) : Bool :=
  (match f.startDate with
   | none => true
   | some s => s ≤ ts) &&
  (match f.endDate with
   | none => true
   | some e => ts ≤ e)

/-- The operator scope check shared by history and stats:
`Bus.findOne({_id: busId, operatorId: user.operatorId})` must find a
bus. -/
def operatorDenied (u : Actor) (busId : Nat) (db : DB) : Bool :=
  u.role == "operator" &&
    !(db.buses.any (fun b => b.id == busId && b.operatorId == u.operatorId))

/-- `getBusLocationHistory` (locationService.js:190-241): driver and
operator scope checks, filtered query sorted newest-first,
`limit`/`skip` pagination (`skip((page-1)*limit)` applies before
`limit`), and pagination metadata with
`totalPages = Math.ceil(total/limit)`. -/
def getBusLocationHistory (busId : Nat) (f : HistoryFilters)
    (user : Option Actor) (db : DB) : Except String HistoryResult :=
  let denied : Option String :=
    match user with
    | none => none
    | some u =>
      if driverDenied u busId then some msgHistoryDenied
      else if operatorDenied u busId db then some msgOperatorDenied
      else none
  match denied with
  | some m => .error m
  | none =>
    let fl := db.locations.filter
      (fun r => r.busId == busId && inDateRange f r.timestamp)
    let locs := (sortByTsDesc fl).drop ((f.page - 1) * f.limit) |>.take f.limit
    .ok { locations := locs
          pagination :=
            { totalLocations := fl.length
              totalPages := (fl.length + f.limit - 1) / f.limit
              currentPage := f.page
              count := locs.length } }

/-- One output row of `getBusesNearLocation` after the final
`$project`. -/
structure NearbyRow where
  busId : Nat
  location : ℚ × ℚ
  speed : ℚ
  heading : ℚ
  timestamp : Nat
  distanceKm : ℚ
  busNumber : String
  busType : String
deriving DecidableEq

/-- `$round [x, 2]`: round to 2 decimal places (exact ties between
two 2-decimal values do not occur in any statement below). -/
def round2 (q : ℚ) : ℚ :=
  ((⌊q * 100 + 1 / 2⌋ : ℤ) : ℚ) / 100

/-- Sort key of the final `$sort: {distance: 1}`. -/
def distAsc (a b : NearbyRow) : Prop :=
  a.distanceKm ≤ b.distanceKm

instance : DecidableRel distAsc := fun a b =>
  inferInstanceAs (Decidable (a.distanceKm ≤ b.distanceKm))

/-- The latest record of one bus among a result set:
`$sort {busId:1, timestamp:-1}` followed by `$group {$first}` keeps,
per bus, the row with the greatest timestamp. -/
def latestFor (busId : Nat) (l : List LocationRec) : Option LocationRec :=
  (sortByTsDesc (l.filter (fun r => r.busId == busId))).head?

/-- The `$sort` + `$group: {_id: "$busId", $first}` +
`$replaceRoot` stage: one row per distinct bus, carrying its latest
record of the input set. -/
def groupLatestByBus (l : List LocationRec) : List LocationRec :=
  ((l.map (fun r => r.busId)).dedup).filterMap (fun i => latestFor i l)

/-- The `$lookup buses` + `$unwind "$bus"` + `$match
{"bus.status": "active"}` stages: join each surviving location row
with its bus document (rows with no matching bus are dropped by the
`$unwind`) and keep only the rows of buses whose status is
`"active"` (the value is fixed in the source; there is no status
parameter). -/
def nearbyJoin (db : DB) (l : List LocationRec) :
    List (LocationRec × Bus) :=
  l.filterMap (fun r =>
    match db.buses.find? (fun b => b.id == r.busId) with
    | none => none
    | some b => if b.status == "active" then some (r, b) else none)

/-- The final `$project` stage: one output row, with the distance
converted to km and rounded to 2 decimals. -/
def nearbyProject (geoDist : ℚ × ℚ → ℚ × ℚ → ℚ) (center : ℚ × ℚ)
    (p : LocationRec × Bus) : NearbyRow :=
  { busId := p.1.busId
    location := p.1.coordinates
    speed := p.1.speed
    heading := p.1.heading
    timestamp := p.1.timestamp
    distanceKm := round2 (geoDist center p.1.coordinates / 1000)
    busNumber := p.2.busNumber
    busType := p.2.busType }

/-- `getBusesNearLocation` (locationService.js:246-340).  `geoDist`
is the database's geodesic distance in meters between two GeoJSON
`[longitude, latitude]` points, abstracted as a parameter.  Pipeline
of the source: `$geoNear` with `maxDistance = radiusKm * 1000`
(keeps every ping within the radius), group to one latest row per
bus, join `buses` and keep `status === "active"`, project with the
distance converted to km and rounded to 2 decimals, sort by distance
ascending. -/
def getBusesNearLocation (geoDist : ℚ × ℚ → ℚ × ℚ → ℚ)
    (latitude longitude : ℚ) (radiusInKm : ℚ) (db : DB) :
    Except String (List NearbyRow) :=
  if latitude < -90 ∨ 90 < latitude then .error msgLatRange
  else if longitude < -180 ∨ 180 < longitude then .error msgLonRange
  else
    let radiusInMeters := radiusInKm * 1000
    let center : ℚ × ℚ := (longitude, latitude)
    let matched := db.locations.filter
      (fun r => geoDist center r.coordinates ≤ radiusInMeters)
    let rows := (nearbyJoin db (groupLatestByBus matched)).map
      (nearbyProject geoDist center)
    .ok (rows.insertionSort distAsc)

/-- The `$group {_id: null, ...}` aggregate of `getBusLocationStats`. -/
structure OverallStats where
  totalRecords : Nat
  avgSpeed : ℚ
  maxSpeed : ℚ
  firstRecord : Nat
  lastRecord : Nat
deriving DecidableEq

/-- One day bucket of the daily series; `day` is the calendar-day
index (`timestamp` divided by a day), modelling the
`$dateToString %Y-%m-%d` group key. -/
structure DailyStat where
  day : Nat
  count : Nat
  avgSpeed : ℚ
deriving DecidableEq

/-- Result of `getBusLocationStats`; `overall = none` models the
`stats[0] || {}` fallback (empty object when the bus has no
records). -/
structure StatsResult where
  overall : Option OverallStats
  dailyStats : List DailyStat
deriving DecidableEq

/-- Milliseconds per day (`24 * 60 * 60 * 1000`). -/
def msPerDay : Nat := 86400000

/-- `getBusLocationStats` (locationService.js:345-415): driver and
operator scope checks, one overall aggregate over every record of the
bus, and a per-day series over the trailing 30 days sorted by day
ascending. -/
def getBusLocationStats (busId : Nat) (user : Option Actor) (db : DB) :
    Except String StatsResult :=
  let denied : Option String :=
    match user with
    | none => none
    | some u =>
      if driverDenied u busId then some msgStatsDenied
      else if operatorDenied u busId db then some msgOperatorDenied
      else none
  match denied with
  | some m => .error m
  | none =>
    let recs := db.locations.filter (fun r => r.busId == busId)
    let overall : Option OverallStats :=
      match recs with
      | [] => none
      | r :: rest =>
        some { totalRecords := recs.length
               avgSpeed := (recs.map (fun x => x.speed)).sum / recs.length
               maxSpeed := rest.foldl (fun m x => max m x.speed) r.speed
               firstRecord := rest.foldl (fun m x => min m x.timestamp) r.timestamp
               lastRecord := rest.foldl (fun m x => max m x.timestamp) r.timestamp }
    let recent := recs.filter (fun r => db.clock - 30 * msPerDay ≤ r.timestamp)
    let days := ((recent.map (fun r => r.timestamp / msPerDay)).dedup).insertionSort (· ≤ ·)
    let dailyStats := days.map (fun d =>
      let ds := recent.filter (fun r => r.timestamp / msPerDay == d)
      { day := d
        count := ds.length
        avgSpeed := (ds.map (fun x => x.speed)).sum / ds.length })
    .ok { overall := overall, dailyStats := dailyStats }

/-- `deleteRoute` (routeService.js:181-199): `Route.findById`, count
of buses referencing the route, conflict error while any exist,
otherwise `findByIdAndDelete`. -/
def deleteRoute (routeId : Nat) (db : DB) : Except String Bool × DB :=
  match db.routes.find? (fun r => r.id == routeId) with
  | none => (.error msgRouteNotFound, db)
  | some _ =>
    let busesOnRoute := (db.buses.filter (fun b => b.routeId == routeId)).length
    if 0 < busesOnRoute then (.error msgRouteConflict, db)
    else (.ok true, { db with routes := db.routes.filter (fun r => r.id != routeId) })

/-- `userSchema.methods.addRefreshToken` (the User schema): push the
token, then keep only the last 5 (`slice(-5)`). -/
def addRefreshToken (token : String) (refreshTokens : List String) :
    List String :=
  let ts := refreshTokens ++ [token]
  if 5 < ts.length then ts.drop (ts.length - 5) else ts

/-- `userSchema.methods.removeRefreshToken`: drop every stored entry
equal to the token. -/
def removeRefreshToken (token : String) (refreshTokens : List String) :
    List String :=
  refreshTokens.filter (fun t => t != token)

/-- The stored user fields `refreshUserTokens` touches. -/
structure StoredUser where
  id : Nat
  isActive : Bool
  refreshTokens : List String
deriving DecidableEq

/-- `refreshUserTokens` (userService.js:91-129).  `user = none` models
a failed `jwt.verify` or a missing user; the freshly minted token is
the `newRefreshToken` parameter.  Every failure surfaces as the single
catch-all message of the source's `try/catch`.  Rotation removes the
old token, then stores the new one. -/
def refreshUserTokens (user : Option StoredUser)
    (refreshToken newRefreshToken : String) : Except String StoredUser :=
  match user with
  | none => .error msgBadRefresh
  | some u =>
    if !(u.refreshTokens.any (fun t => t == refreshToken)) then
      .error msgBadRefresh
    else if !u.isActive then .error msgBadRefresh
    else
      let rotated := addRefreshToken newRefreshToken
        (removeRefreshToken refreshToken u.refreshTokens)
      .ok { u with refreshTokens := rotated }

/-! Helper lemmas about the query building blocks. -/

theorem mem_sortByTsDesc {l : List LocationRec} {x : LocationRec} :
    x ∈ sortByTsDesc l ↔ x ∈ l :=
  List.mem_insertionSort tsDesc

/-- The head of a timestamp-descending sort is a member of maximal
timestamp. -/
theorem head_sortByTsDesc_max {l : List LocationRec} {x : LocationRec}
    (h : (sortByTsDesc l).head? = some x) :
    x ∈ l ∧ ∀ y ∈ l, y.timestamp ≤ x.timestamp := by
  have hs : List.Sorted tsDesc (sortByTsDesc l) :=
    List.sorted_insertionSort tsDesc l
  cases hsort : sortByTsDesc l with
  | nil => rw [hsort] at h; cases h
  | cons z rest =>
    rw [hsort] at h
    have hx : x = z := by cases h; rfl
    subst hx
    rw [hsort] at hs
    constructor
    · exact mem_sortByTsDesc.mp (hsort ▸ List.mem_cons_self x rest)
    · intro y hy
      have hy2 : y ∈ x :: rest := hsort ▸ mem_sortByTsDesc.mpr hy
      rcases List.mem_cons.mp hy2 with h1 | h2
      · exact le_of_eq (h1 ▸ rfl)
      · exact List.rel_of_sorted_cons hs y h2

/-- What `latestFor` returns: a record of the given bus, present in
the set, of maximal timestamp among that bus's records. -/
theorem latestFor_spec {i : Nat} {l : List LocationRec} {x : LocationRec}
    (h : latestFor i l = some x) :
    x.busId = i ∧ x ∈ l ∧
      ∀ y ∈ l, y.busId = i → y.timestamp ≤ x.timestamp := by
  have hmax := head_sortByTsDesc_max h
  have hxf : x ∈ l.filter (fun r => r.busId == i) := hmax.1
  have hx := List.mem_filter.mp hxf
  refine ⟨by simpa using hx.2, hx.1, ?_⟩
  intro y hy hyi
  exact hmax.2 y (List.mem_filter.mpr ⟨hy, by simpa using hyi⟩)

theorem mem_filterMap_latest {ids : List Nat} {l : List LocationRec}
    {x : LocationRec} (h : x ∈ ids.filterMap (fun i => latestFor i l)) :
    x.busId ∈ ids := by
  rcases List.mem_filterMap.mp h with ⟨i, hi, hlat⟩
  have := (latestFor_spec hlat).1
  rw [this]; exact hi

theorem nodup_filterMap_latest (l : List LocationRec) :
    ∀ ids : List Nat, ids.Nodup →
      ((ids.filterMap (fun i => latestFor i l)).map
        (fun r => r.busId)).Nodup := by
  intro ids
  induction ids with
  | nil => intro _; simp
  | cons i t ih =>
    intro hnd
    rw [List.filterMap_cons]
    cases hlat : latestFor i l with
    | none => exact ih (List.nodup_cons.mp hnd).2
    | some x =>
      rw [List.map_cons, List.nodup_cons]
      refine ⟨?_, ih (List.nodup_cons.mp hnd).2⟩
      intro hmem
      rcases List.mem_map.mp hmem with ⟨y, hy, hxy⟩
      have hyid : y.busId ∈ t := mem_filterMap_latest hy
      have hxid : x.busId = i := (latestFor_spec hlat).1
      rw [hxy, hxid] at hyid
      exact (List.nodup_cons.mp hnd).1 hyid

/-- Every row of `groupLatestByBus` is a record of the input set of
maximal timestamp for its bus. -/
theorem groupLatestByBus_spec {l : List LocationRec} {x : LocationRec}
    (h : x ∈ groupLatestByBus l) :
    x ∈ l ∧ ∀ y ∈ l, y.busId = x.busId → y.timestamp ≤ x.timestamp := by
  rcases List.mem_filterMap.mp h with ⟨i, _, hlat⟩
  have hs := latestFor_spec hlat
  exact ⟨hs.2.1, by rw [hs.1]; exact hs.2.2⟩

/-- `groupLatestByBus` yields at most one row per distinct bus. -/
theorem groupLatestByBus_nodup (l : List LocationRec) :
    ((groupLatestByBus l).map (fun r => r.busId)).Nodup :=
  nodup_filterMap_latest l _ (List.nodup_dedup _)

theorem mem_fst_filterMap {g : LocationRec → Option (LocationRec × Bus)}
    (hg : ∀ r p, g r = some p → p.1 = r) {l : List LocationRec}
    {p : LocationRec × Bus} (h : p ∈ l.filterMap g) : p.1 ∈ l := by
  rcases List.mem_filterMap.mp h with ⟨r, hr, hgr⟩
  rw [hg r p hgr]; exact hr

/-- A bus-join step (`filterMap` keeping the location in the first
component) preserves distinctness of the bus ids. -/
theorem nodup_busId_filterMap
    {g : LocationRec → Option (LocationRec × Bus)}
    (hg : ∀ r p, g r = some p → p.1 = r) :
    ∀ l : List LocationRec, (l.map (fun r => r.busId)).Nodup →
      ((l.filterMap g).map (fun p => p.1.busId)).Nodup := by
  intro l
  induction l with
  | nil => intro _; simp
  | cons r t ih =>
    intro hnd
    rw [List.map_cons, List.nodup_cons] at hnd
    rw [List.filterMap_cons]
    cases hgr : g r with
    | none => exact ih hnd.2
    | some p =>
      rw [List.map_cons, List.nodup_cons]
      refine ⟨?_, ih hnd.2⟩
      intro hmem
      rcases List.mem_map.mp hmem with ⟨q, hq, hqp⟩
      have hq1 : q.1 ∈ t := mem_fst_filterMap hg hq
      have : q.1.busId ∈ t.map (fun x => x.busId) :=
        List.mem_map.mpr ⟨q.1, hq1, rfl⟩
      rw [hqp, hg r p hgr] at this
      exact hnd.1 this

/-- Inserting an element strictly newer than nothing in the list
(every element is strictly newer than it) lands at the back. -/
theorem orderedInsert_at_back (x : LocationRec) :
    ∀ l : List LocationRec, (∀ b ∈ l, x.timestamp < b.timestamp) →
      l.orderedInsert tsDesc x = l ++ [x] := by
  intro l
  induction l with
  | nil => intro _; rfl
  | cons b t ih =>
    intro hb
    have hxb : ¬ tsDesc x b :=
      not_le_of_lt (hb b (List.mem_cons_self b t))
    simp only [List.orderedInsert, if_neg hxb]
    rw [ih (fun c hc => hb c (List.mem_cons_of_mem b hc))]
    rfl

/-- Sorting a strictly increasing list by descending timestamp
reverses it. -/
theorem insertionSort_tsDesc_of_strictMono :
    ∀ l : List LocationRec,
      l.Pairwise (fun a b => a.timestamp < b.timestamp) →
      l.insertionSort tsDesc = l.reverse := by
  intro l
  induction l with
  | nil => intro _; rfl
  | cons x t ih =>
    intro hp
    rw [List.pairwise_cons] at hp
    rw [List.insertionSort, ih hp.2, List.reverse_cons]
    exact orderedInsert_at_back x t.reverse
      (fun b hb => hp.1 b (List.mem_reverse.mp hb))

/-- `addRefreshToken` keeps exactly the most recent
`min (n+1) 5` tokens: it is `slice(-5)` of the pushed list. -/
theorem addRefreshToken_eq_drop (t : String) (l : List String) :
    addRefreshToken t l = (l ++ [t]).drop ((l.length + 1) - 5) := by
  unfold addRefreshToken
  by_cases h : 5 < (l ++ [t]).length
  · rw [if_pos h]
    simp only [List.length_append, List.length_cons, List.length_nil]
  · rw [if_neg h]
    simp only [List.length_append, List.length_cons, List.length_nil] at h
    have : l.length + 1 - 5 = 0 := by omega
    rw [this, List.drop_zero]

/-- The stored token list never exceeds 5 entries after an add. -/
theorem addRefreshToken_length_le (t : String) (l : List String) :
    (addRefreshToken t l).length ≤ 5 := by
  rw [addRefreshToken_eq_drop, List.length_drop, List.length_append]
  simp only [List.length_cons, List.length_nil]
  omega

theorem driverDenied_of_ne {u : Actor} {busId : Nat}
    (hrole : u.role = "driver") (hne : u.assignedBusId ≠ some busId) :
    driverDenied u busId = true := by
  unfold driverDenied
  rw [hrole]
  cases h : u.assignedBusId with
  | none => rfl
  | some b =>
    have : b ≠ busId := fun hb => hne (h.trans (by rw [hb]))
    simp [this]

theorem driverDenied_of_eq {u : Actor} {busId : Nat}
    (hassigned : u.assignedBusId = some busId) :
    driverDenied u busId = false := by
  unfold driverDenied
  rw [hassigned]
  simp

theorem operatorDenied_of_driver {u : Actor} {busId : Nat} {db : DB}
    (hrole : u.role = "driver") : operatorDenied u busId db = false := by
  unfold operatorDenied
  rw [hrole]
  rfl

theorem driverDenied_of_admin {u : Actor} {busId : Nat}
    (hrole : u.role = "admin") : driverDenied u busId = false := by
  unfold driverDenied
  rw [hrole]
  rfl

theorem operatorDenied_of_admin {u : Actor} {busId : Nat} {db : DB}
    (hrole : u.role = "admin") : operatorDenied u busId db = false := by
  unfold operatorDenied
  rw [hrole]
  rfl

/-! The claims. -/

/-- C1: the claim says every latitude in [-90, 90] paired with a
longitude in [-180, 180] is accepted by `updateBusLocation`.  The
source's guard `if (!latitude || !longitude)` uses JS falsiness, so
the legal coordinate value 0 (equator/prime meridian) is rejected
with the message "Latitude and longitude are required" even though
both values are supplied: latitude 0 with longitude 79.9935, sent by
an admin for an existing bus, is inside the claimed ranges yet fails
and leaves the store untouched. -/
theorem C1_zero_latitude_rejected :
    ((-90 : ℚ) ≤ 0 ∧ (0 : ℚ) ≤ 90 ∧
      (-180 : ℚ) ≤ 799935 / 10000 ∧ (799935 / 10000 : ℚ) ≤ 180) ∧
    updateBusLocation 1
      { latitude := some 0, longitude := some (799935 / 10000),
        speed := some 45, heading := some 180, accuracy := none,
        timestamp := none }
      { role := "admin", username := "admin1", assignedBusId := none,
        operatorId := none }
      { locations := [],
        buses := [{ id := 1, busNumber := "NB-0001", busType := "Luxury",
                    status := "active", routeId := 1, operatorId := none,
                    currentLocation := none, lastUpdated := none }],
        routes := [], clock := 1000 } =
    (.error msgCoordsRequired,
      { locations := [],
        buses := [{ id := 1, busNumber := "NB-0001", busType := "Luxury",
                    status := "active", routeId := 1, operatorId := none,
                    currentLocation := none, lastUpdated := none }],
        routes := [], clock := 1000 }) := by
  exact ⟨by norm_num, by decide⟩

/-- C4: a latitude outside [-90, 90] or a longitude outside
[-180, 180] makes `updateBusLocation` fail with a ValidationError
message and return the store unchanged: no Location record is
appended and no Bus is touched. -/
theorem C4_invalid_coords_rejected (db : DB) (busId : Nat) (u : Actor)
    (d : LocationData)
    (h : (∃ a, d.latitude = some a ∧ (a < -90 ∨ 90 < a)) ∨
         (∃ b, d.longitude = some b ∧ (b < -180 ∨ 180 < b))) :
    ∃ m, updateBusLocation busId d u db = (.error m, db) ∧
      isValidationMsg m = true := by
  unfold updateBusLocation
  split_ifs with h1 h2 h3 h4
  · exact ⟨msgCoordsRequired, rfl, by decide⟩
  · exact ⟨msgLatRange, rfl, by decide⟩
  · exact ⟨msgLonRange, rfl, by decide⟩
  · exfalso
    rcases h with ⟨a, hla, hr⟩ | ⟨b, hlo, hr⟩
    · rw [hla] at h2
      exact h2 (by simpa using hr)
    · rw [hlo] at h3
      exact h3 (by simpa using hr)
  · exfalso
    rcases h with ⟨a, hla, hr⟩ | ⟨b, hlo, hr⟩
    · rw [hla] at h2
      exact h2 (by simpa using hr)
    · rw [hlo] at h3
      exact h3 (by simpa using hr)

/-- Witness for C4 at latitude 91. -/
theorem C4_invalid_coords_rejected_witness :
    ((some (91 : ℚ) = some 91 ∧ ((91 : ℚ) < -90 ∨ (90 : ℚ) < 91))) ∧
    (∃ m, updateBusLocation 3
      { latitude := some 91, longitude := some 80, speed := none,
        heading := none, accuracy := none, timestamp := none }
      { role := "admin", username := "a", assignedBusId := none,
        operatorId := none }
      { locations := [], buses := [], routes := [], clock := 2 } =
        (.error m,
          { locations := [], buses := [], routes := [], clock := 2 }) ∧
      isValidationMsg m = true) :=
  ⟨⟨rfl, by decide⟩,
    C4_invalid_coords_rejected _ 3 _ _ (Or.inl ⟨91, rfl, by decide⟩)⟩

/-- C7: deleting a Route referenced by at least one Bus fails with
the ConflictError message and leaves the store unchanged; when no
Bus references it the deletion succeeds and removes exactly that
route. -/
theorem C7_route_delete_conflict (db : DB) (routeId : Nat) (rt : Route)
    (hmem : rt ∈ db.routes) (hid : rt.id = routeId) :
    ((∃ b ∈ db.buses, b.routeId = routeId) →
        deleteRoute routeId db = (.error msgRouteConflict, db)) ∧
    ((∀ b ∈ db.buses, b.routeId ≠ routeId) →
        deleteRoute routeId db =
          (.ok true,
            { db with routes := db.routes.filter (fun r => r.id != routeId) })) := by
  have hfind : db.routes.find? (fun r => r.id == routeId) ≠ none := by
    intro hnone
    rw [List.find?_eq_none] at hnone
    exact hnone rt hmem (by simpa using hid)
  unfold deleteRoute
  cases hf : db.routes.find? (fun r => r.id == routeId) with
  | none => exact absurd hf hfind
  | some r0 =>
    constructor
    · rintro ⟨b, hb, hbr⟩
      have hbmem : b ∈ db.buses.filter (fun x => x.routeId == routeId) :=
        List.mem_filter.mpr ⟨hb, by simpa using hbr⟩
      have hpos : 0 < (db.buses.filter (fun x => x.routeId == routeId)).length :=
        List.length_pos.mpr (List.ne_nil_of_mem hbmem)
      rw [if_pos hpos]
    · intro hnone
      have hnil : db.buses.filter (fun x => x.routeId == routeId) = [] := by
        rw [List.filter_eq_nil_iff]
        intro b hb
        simpa using hnone b hb
      rw [hnil]
      simp

/-- Witness for C7: a route referenced by one bus cannot be
deleted. -/
theorem C7_route_delete_conflict_witness :
    ({ id := 7, routeNumber := "87" } : Route) ∈
      [({ id := 7, routeNumber := "87" } : Route)] ∧
    deleteRoute 7
      { locations := [],
        buses := [{ id := 1, busNumber := "NB-0001", busType := "Luxury",
                    status := "active", routeId := 7, operatorId := none,
                    currentLocation := none, lastUpdated := none }],
        routes := [{ id := 7, routeNumber := "87" }], clock := 0 } =
      (.error msgRouteConflict,
        { locations := [],
          buses := [{ id := 1, busNumber := "NB-0001", busType := "Luxury",
                      status := "active", routeId := 7, operatorId := none,
                      currentLocation := none, lastUpdated := none }],
          routes := [{ id := 7, routeNumber := "87" }], clock := 0 }) :=
  ⟨by decide,
    (C7_route_delete_conflict _ 7 { id := 7, routeNumber := "87" }
      (by decide) rfl).1
      ⟨{ id := 1, busNumber := "NB-0001", busType := "Luxury",
         status := "active", routeId := 7, operatorId := none,
         currentLocation := none, lastUpdated := none }, by decide, rfl⟩⟩

/-- C8: the stored refresh-token list is bounded by 5: an add keeps
only the newest 5 entries (`slice(-5)`, oldest evicted), and the
refresh rotation removes the old token before adding the new one, so
its result also respects the bound. -/
theorem C8_refresh_token_bound (l : List String) (t old newTok : String)
    (u u' : StoredUser)
    (hrot : refreshUserTokens (some u) old newTok = .ok u') :
    (addRefreshToken t l).length ≤ 5 ∧
    addRefreshToken t l = (l ++ [t]).drop ((l.length + 1) - 5) ∧
    u'.refreshTokens =
      addRefreshToken newTok (removeRefreshToken old u.refreshTokens) ∧
    u'.refreshTokens.length ≤ 5 := by
  have hu : u'.refreshTokens =
      addRefreshToken newTok (removeRefreshToken old u.refreshTokens) := by
    unfold refreshUserTokens at hrot
    dsimp only at hrot
    split_ifs at hrot
    cases hrot
    rfl
  refine ⟨addRefreshToken_length_le t l, addRefreshToken_eq_drop t l, hu, ?_⟩
  rw [hu]
  exact addRefreshToken_length_le _ _

/-- Witness for C8: rotating out of a full 5-token list keeps the
bound and the expected contents. -/
theorem C8_refresh_token_bound_witness :
    refreshUserTokens
      (some { id := 1, isActive := true,
              refreshTokens := ["t1", "t2", "t3", "t4", "t5"] }) "t1" "t6" =
      .ok { id := 1, isActive := true,
            refreshTokens := ["t2", "t3", "t4", "t5", "t6"] } ∧
    ([("t2" : String), "t3", "t4", "t5", "t6"].length ≤ 5) :=
  ⟨by decide,
    (C8_refresh_token_bound ["a"] "x" "t1" "t6"
      { id := 1, isActive := true,
        refreshTokens := ["t1", "t2", "t3", "t4", "t5"] }
      { id := 1, isActive := true,
        refreshTokens := ["t2", "t3", "t4", "t5", "t6"] }
      (by decide)).2.2.2⟩

/-- C9: with no actor supplied, `getBusLocation`,
`getBusLocationHistory` and `getBusLocationStats` perform no access
check: they return exactly what an admin actor receives, and none of
their error outcomes is an AccessDenied message. -/
theorem C9_no_actor_no_access_check (db : DB) (busId : Nat)
    (f : HistoryFilters) (admin : Actor) (hadmin : admin.role = "admin") :
    getBusLocation busId none db = getBusLocation busId (some admin) db ∧
    getBusLocationHistory busId f none db =
      getBusLocationHistory busId f (some admin) db ∧
    getBusLocationStats busId none db =
      getBusLocationStats busId (some admin) db ∧
    (∀ m, getBusLocation busId none db = .error m →
      isAccessDenied m = false) ∧
    (∀ m, getBusLocationHistory busId f none db = .error m →
      isAccessDenied m = false) ∧
    (∀ m, getBusLocationStats busId none db = .error m →
      isAccessDenied m = false) := by
  have hd : driverDenied admin busId = false := driverDenied_of_admin hadmin
  have ho : operatorDenied admin busId db = false :=
    operatorDenied_of_admin hadmin
  refine ⟨?_, ?_, ?_, ?_, ?_, ?_⟩
  · unfold getBusLocation
    dsimp only
    rw [hd]
  · unfold getBusLocationHistory
    dsimp only
    rw [hd, ho]
    simp
  · unfold getBusLocationStats
    dsimp only
    rw [hd, ho]
    simp
  · intro m hm
    unfold getBusLocation at hm
    dsimp only at hm
    rw [if_neg Bool.false_ne_true] at hm
    cases hh : (sortByTsDesc (db.locations.filter
        (fun r => r.busId == busId))).head? with
    | none =>
      rw [hh] at hm
      cases hm
      decide
    | some r =>
      rw [hh] at hm
      cases hm
  · intro m hm
    unfold getBusLocationHistory at hm
    dsimp only at hm
    cases hm
  · intro m hm
    unfold getBusLocationStats at hm
    dsimp only at hm
    cases hm

/-- Witness for C9 on a one-record store. -/
theorem C9_no_actor_no_access_check_witness :
    (("admin" : String) = "admin") ∧
    getBusLocation 1 none
      { locations := [{ busId := 1, coordinates := (80, 7), speed := 10,
                        heading := 0, accuracy := 0, timestamp := 4 }],
        buses := [], routes := [], clock := 9 } =
    getBusLocation 1
      (some { role := "admin", username := "a", assignedBusId := none,
              operatorId := none })
      { locations := [{ busId := 1, coordinates := (80, 7), speed := 10,
                        heading := 0, accuracy := 0, timestamp := 4 }],
        buses := [], routes := [], clock := 9 } :=
  ⟨rfl,
    (C9_no_actor_no_access_check
      { locations := [{ busId := 1, coordinates := (80, 7), speed := 10,
                        heading := 0, accuracy := 0, timestamp := 4 }],
        buses := [], routes := [], clock := 9 } 1 {}
      { role := "admin", username := "a", assignedBusId := none,
        operatorId := none } rfl).1⟩

/-- C10: a bus with no Location records does not make
`getBusLocationStats` fail: it returns the empty overall aggregate
and an empty daily series, while `getBusLocation` fails with the
NotFound message on the same store. -/
theorem C10_stats_empty_ok (db : DB) (busId : Nat)
    (h : db.locations.filter (fun r => r.busId == busId) = []) :
    getBusLocationStats busId none db =
      .ok { overall := none, dailyStats := [] } ∧
    getBusLocation busId none db = .error msgNoLocation := by
  constructor
  · unfold getBusLocationStats
    dsimp only
    rw [h]
    rfl
  · unfold getBusLocation
    dsimp only
    rw [h]
    rfl

/-- Witness for C10: an empty store. -/
theorem C10_stats_empty_ok_witness :
    (List.filter (fun r => r.busId == 5)
      ([] : List LocationRec) = []) ∧
    getBusLocationStats 5 none
      { locations := [], buses := [], routes := [], clock := 0 } =
      .ok { overall := none, dailyStats := [] } :=
  ⟨rfl,
    (C10_stats_empty_ok
      { locations := [], buses := [], routes := [], clock := 0 } 5 rfl).1⟩

/-- C3: a driver whose `assignedBusId` is absent or different from
the target bus gets the AccessDenied error from `updateBusLocation`
(on an otherwise valid payload), `getBusLocationHistory` and
`getBusLocationStats`; the same driver acting on the assigned bus
passes the access check and every one of the three calls succeeds. -/
theorem C3_driver_scope (db : DB) (u : Actor) (busId : Nat)
    (d : LocationData) (f : HistoryFilters)
    (hrole : u.role = "driver")
    (hlat : ∃ a, d.latitude = some a ∧ a ≠ 0 ∧ -90 ≤ a ∧ a ≤ 90)
    (hlon : ∃ b, d.longitude = some b ∧ b ≠ 0 ∧ -180 ≤ b ∧ b ≤ 180) :
    (u.assignedBusId ≠ some busId →
       (updateBusLocation busId d u db).1 = .error msgUpdateDenied ∧
       getBusLocationHistory busId f (some u) db = .error msgHistoryDenied ∧
       getBusLocationStats busId (some u) db = .error msgStatsDenied) ∧
    (u.assignedBusId = some busId →
       (∃ loc db2, updateBusLocation busId d u db = (.ok loc, db2)) ∧
       (∃ res, getBusLocationHistory busId f (some u) db = .ok res) ∧
       (∃ st, getBusLocationStats busId (some u) db = .ok st)) := by
  obtain ⟨a, hla, ha0, ha1, ha2⟩ := hlat
  obtain ⟨b, hlb, hb0, hb1, hb2⟩ := hlon
  have hfal : (numFalsy d.latitude || numFalsy d.longitude) = false := by
    rw [hla, hlb]
    simp [numFalsy, ha0, hb0]
  have hr1 : ¬(d.latitude.getD 0 < -90 ∨ 90 < d.latitude.getD 0) := by
    rw [hla, Option.getD_some]
    rintro (hc | hc)
    · exact absurd hc (not_lt_of_le ha1)
    · exact absurd hc (not_lt_of_le ha2)
  have hr2 : ¬(d.longitude.getD 0 < -180 ∨ 180 < d.longitude.getD 0) := by
    rw [hlb, Option.getD_some]
    rintro (hc | hc)
    · exact absurd hc (not_lt_of_le hb1)
    · exact absurd hc (not_lt_of_le hb2)
  constructor
  · intro hne
    have hdd : driverDenied u busId = true := driverDenied_of_ne hrole hne
    refine ⟨?_, ?_, ?_⟩
    · unfold updateBusLocation
      rw [hfal, if_neg Bool.false_ne_true, if_neg hr1, if_neg hr2, hdd]
      rfl
    · unfold getBusLocationHistory
      dsimp only
      rw [hdd]
      rfl
    · unfold getBusLocationStats
      dsimp only
      rw [hdd]
      rfl
  · intro heq
    have hdd : driverDenied u busId = false := driverDenied_of_eq heq
    have hod : operatorDenied u busId db = false := operatorDenied_of_driver hrole
    refine ⟨?_, ?_, ?_⟩
    · unfold updateBusLocation
      rw [hfal, if_neg Bool.false_ne_true, if_neg hr1, if_neg hr2, hdd,
        if_neg Bool.false_ne_true]
      exact ⟨_, _, rfl⟩
    · unfold getBusLocationHistory
      dsimp only
      rw [hdd, hod]
      exact ⟨_, rfl⟩
    · unfold getBusLocationStats
      dsimp only
      rw [hdd, hod]
      exact ⟨_, rfl⟩

/-- Witness for C3: a driver assigned to bus 7 is denied on bus 9. -/
theorem C3_driver_scope_witness :
    (some (7 : Nat) ≠ some (9 : Nat)) ∧
    (updateBusLocation 9
      { latitude := some 7, longitude := some 80, speed := some 45,
        heading := some 180, accuracy := none, timestamp := none }
      { role := "driver", username := "d1", assignedBusId := some 7,
        operatorId := none }
      { locations := [], buses := [], routes := [], clock := 3 }).1 =
      .error msgUpdateDenied ∧
    getBusLocationHistory 9 {}
      (some { role := "driver", username := "d1", assignedBusId := some 7,
              operatorId := none })
      { locations := [], buses := [], routes := [], clock := 3 } =
      .error msgHistoryDenied ∧
    getBusLocationStats 9
      (some { role := "driver", username := "d1", assignedBusId := some 7,
              operatorId := none })
      { locations := [], buses := [], routes := [], clock := 3 } =
      .error msgStatsDenied :=
  ⟨by decide,
    (C3_driver_scope
      { locations := [], buses := [], routes := [], clock := 3 }
      { role := "driver", username := "d1", assignedBusId := some 7,
        operatorId := none } 9
      { latitude := some 7, longitude := some 80, speed := some 45,
        heading := some 180, accuracy := none, timestamp := none } {}
      rfl ⟨7, rfl, by decide, by decide, by decide⟩
      ⟨80, rfl, by decide, by decide, by decide⟩).1 (by decide)⟩

/-- C6: when the records of a bus were created with strictly
increasing timestamps, `getBusLocationHistory` with `limit = N`,
`page = 1` and no date filters returns exactly those `N` records in
strictly decreasing timestamp order - the reverse of insertion
order - with the matching pagination metadata. -/
theorem C6_history_reverse (db : DB) (busId : Nat)
    (recs : List LocationRec)
    (hrecs : db.locations.filter (fun r => r.busId == busId) = recs)
    (hmono : recs.Pairwise (fun x y => x.timestamp < y.timestamp))
    (hpos : 0 < recs.length) :
    getBusLocationHistory busId
      { limit := recs.length, page := 1, startDate := none, endDate := none }
      none db =
      .ok { locations := recs.reverse,
            pagination := { totalLocations := recs.length, totalPages := 1,
                            currentPage := 1, count := recs.length } } := by
  unfold getBusLocationHistory
  dsimp only
  have hf : db.locations.filter
      (fun r => r.busId == busId &&
        inDateRange { limit := recs.length, page := 1, startDate := none,
                      endDate := none } r.timestamp) = recs := by
    rw [← hrecs]
    apply List.filter_congr
    intro x _
    unfold inDateRange
    dsimp only
    rw [Bool.and_true, Bool.and_true]
  rw [hf]
  have hsort : sortByTsDesc recs = recs.reverse := by
    unfold sortByTsDesc
    exact insertionSort_tsDesc_of_strictMono recs hmono
  rw [hsort]
  have hdrop : ((1 : Nat) - 1) * recs.length = 0 := by omega
  rw [hdrop, List.drop_zero]
  have htake : List.take recs.length recs.reverse = recs.reverse := by
    rw [← List.length_reverse recs]
    exact List.take_length recs.reverse
  rw [htake, List.length_reverse]
  have hdiv : (recs.length + recs.length - 1) / recs.length = 1 :=
    Nat.div_eq_of_lt_le (by omega) (by omega)
  rw [hdiv]

/-- Witness for C6: two pings with timestamps 1 and 2 come back
newest-first. -/
theorem C6_history_reverse_witness :
    (List.filter (fun r => r.busId == 1)
      [({ busId := 1, coordinates := (80, 7), speed := 10, heading := 0,
          accuracy := 0, timestamp := 1 } : LocationRec),
       { busId := 1, coordinates := (81, 8), speed := 20, heading := 0,
         accuracy := 0, timestamp := 2 }] =
      [({ busId := 1, coordinates := (80, 7), speed := 10, heading := 0,
          accuracy := 0, timestamp := 1 } : LocationRec),
       { busId := 1, coordinates := (81, 8), speed := 20, heading := 0,
         accuracy := 0, timestamp := 2 }]) ∧
    getBusLocationHistory 1
      { limit := 2, page := 1, startDate := none, endDate := none } none
      { locations :=
          [{ busId := 1, coordinates := (80, 7), speed := 10, heading := 0,
             accuracy := 0, timestamp := 1 },
           { busId := 1, coordinates := (81, 8), speed := 20, heading := 0,
             accuracy := 0, timestamp := 2 }],
        buses := [], routes := [], clock := 9 } =
      .ok { locations :=
              [{ busId := 1, coordinates := (81, 8), speed := 20,
                 heading := 0, accuracy := 0, timestamp := 2 },
               { busId := 1, coordinates := (80, 7), speed := 10,
                 heading := 0, accuracy := 0, timestamp := 1 }],
            pagination := { totalLocations := 2, totalPages := 1,
                            currentPage := 1, count := 2 } } :=
  ⟨by decide,
    C6_history_reverse
      { locations :=
          [{ busId := 1, coordinates := (80, 7), speed := 10, heading := 0,
             accuracy := 0, timestamp := 1 },
           { busId := 1, coordinates := (81, 8), speed := 20, heading := 0,
             accuracy := 0, timestamp := 2 }],
        buses := [], routes := [], clock := 9 } 1
      [{ busId := 1, coordinates := (80, 7), speed := 10, heading := 0,
         accuracy := 0, timestamp := 1 },
       { busId := 1, coordinates := (81, 8), speed := 20, heading := 0,
         accuracy := 0, timestamp := 2 }]
      (by decide) (by decide) (by decide)⟩

theorem nearbyJoin_mem {db : DB} {l : List (LocationRec)}
    {p : LocationRec × Bus} (h : p ∈ nearbyJoin db l) :
    p.1 ∈ l ∧ p.2 ∈ db.buses ∧ p.2.id = p.1.busId ∧
      p.2.status = "active" := by
  unfold nearbyJoin at h
  rcases List.mem_filterMap.mp h with ⟨r, hr, hgr⟩
  cases hf : db.buses.find? (fun b => b.id == r.busId) with
  | none => rw [hf] at hgr; cases hgr
  | some b =>
    rw [hf] at hgr
    dsimp only at hgr
    by_cases hs : (b.status == "active") = true
    · rw [if_pos hs] at hgr
      cases hgr
      have hid := List.find?_some hf
      exact ⟨hr, List.mem_of_find?_eq_some hf,
        beq_iff_eq.mp hid, beq_iff_eq.mp hs⟩
    · rw [if_neg hs] at hgr
      cases hgr

theorem nearbyJoin_nodup {db : DB} {l : List LocationRec}
    (h : (l.map (fun r => r.busId)).Nodup) :
    ((nearbyJoin db l).map (fun p => p.1.busId)).Nodup := by
  unfold nearbyJoin
  refine nodup_busId_filterMap ?_ l h
  intro r p hp
  cases hf : db.buses.find? (fun b => b.id == r.busId) with
  | none => rw [hf] at hp; cases hp
  | some b =>
    rw [hf] at hp
    dsimp only at hp
    by_cases hs : (b.status == "active") = true
    · rw [if_pos hs] at hp
      cases hp
      rfl
    · rw [if_neg hs] at hp
      cases hp

/-- A sample geodesic oracle for the concrete runs: 0 m from a point
to itself, 1565000 m (roughly the true geodesic between (0,0) and
(10,10)) between distinct points. -/
def fixedDist (c p : ℚ × ℚ) : ℚ :=
  if p = c then 0 else 1565000

/-- Sample ping at the search center, timestamp 1. -/
def pingNear : LocationRec :=
  { busId := 1, coordinates := (0, 0), speed := 10, heading := 0,
    accuracy := 0, timestamp := 1 }

/-- Sample newer ping of the same bus far outside the radius,
timestamp 2. -/
def pingFar : LocationRec :=
  { busId := 1, coordinates := (10, 10), speed := 20, heading := 0,
    accuracy := 0, timestamp := 2 }

/-- The sample active bus both pings belong to. -/
def busNear : Bus :=
  { id := 1, busNumber := "B1", busType := "Normal", status := "active",
    routeId := 1, operatorId := none, currentLocation := some (10, 10),
    lastUpdated := some 2 }

/-- Sample store for the nearby query. -/
def dbNear : DB :=
  { locations := [pingNear, pingFar], buses := [busNear], routes := [],
    clock := 9 }

/-- The row the nearby query returns on `dbNear`. -/
def rowNear : NearbyRow :=
  { busId := 1, location := (0, 0), speed := 10, heading := 0,
    timestamp := 1, distanceKm := 0, busNumber := "B1",
    busType := "Normal" }

/-- Concrete evaluation of the nearby pipeline on `dbNear`: the
timestamp-2 ping is outside the 5 km radius, so the returned row for
bus 1 is the stale timestamp-1 ping at the center. -/
theorem nearby_eval_one :
    getBusesNearLocation fixedDist 0 0 5 dbNear = .ok [rowNear] := by
  unfold getBusesNearLocation
  rw [if_neg (by decide), if_neg (by decide)]
  dsimp only
  rw [show dbNear.locations = [pingNear, pingFar] from rfl]
  have hp1 : fixedDist ((0 : ℚ), (0 : ℚ)) pingNear.coordinates ≤
      (5 : ℚ) * 1000 := by
    norm_num [fixedDist, pingNear]
  have hp2 : ¬ fixedDist ((0 : ℚ), (0 : ℚ)) pingFar.coordinates ≤
      (5 : ℚ) * 1000 := by
    norm_num [fixedDist, pingFar]
  have hfil : List.filter
      (fun r => decide (fixedDist ((0 : ℚ), (0 : ℚ)) r.coordinates ≤
        (5 : ℚ) * 1000)) [pingNear, pingFar] = [pingNear] := by
    simp only [List.filter_cons, decide_eq_true_eq, List.filter_nil]
    rw [if_pos hp1, if_neg hp2]
  rw [hfil]
  have hgl : groupLatestByBus [pingNear] = [pingNear] := by decide
  rw [hgl]
  have hj : nearbyJoin dbNear [pingNear] = [(pingNear, busNear)] := by
    decide
  rw [hj, List.map_cons, List.map_nil]
  have hproj : nearbyProject fixedDist ((0 : ℚ), (0 : ℚ))
      (pingNear, busNear) = rowNear := by
    unfold nearbyProject
    have hdist : round2 (fixedDist ((0 : ℚ), (0 : ℚ))
        pingNear.coordinates / 1000) = 0 := by
      norm_num [fixedDist, pingNear, round2]
    rw [hdist]
    rfl
  rw [hproj]
  rfl

/-- C5: the claim says each returned row carries the bus's single
latest location.  The pipeline applies `$geoNear`'s radius cut
before the per-bus latest `$group`, so it keeps the latest record
*within the radius*: on `dbNear`, bus 1's ping at timestamp 1 lies
at the center but its newer ping at timestamp 2 is far outside the
5 km radius, so the query returns the stale timestamp-1 row while
the bus's actual latest location (`latestFor`) is the timestamp-2
record at different coordinates. -/
theorem C5_nearby_stale_latest :
    getBusesNearLocation fixedDist 0 0 5 dbNear = .ok [rowNear] ∧
    latestFor 1 dbNear.locations = some pingFar ∧
    rowNear.timestamp ≠ pingFar.timestamp ∧
    rowNear.location ≠ pingFar.coordinates :=
  ⟨nearby_eval_one, by decide, by decide, by decide⟩

/-- C5 (amended): every successful `getBusesNearLocation` result has
at most one row per distinct bus; each row carries the latest record
among that bus's pings *within the radius* (which can be older than
the bus's overall latest ping), its distance from the center is at
most the requested radius, and its bus is stored with status
"active" (the filter is fixed to "active"; the source takes no
status parameter). -/
theorem C5_nearby_rows (geoDist : ℚ × ℚ → ℚ × ℚ → ℚ)
    (latitude longitude radiusInKm : ℚ) (db : DB)
    (rows : List NearbyRow)
    (h : getBusesNearLocation geoDist latitude longitude radiusInKm db =
      .ok rows) :
    (rows.map (fun row => row.busId)).Nodup ∧
    ∀ row ∈ rows,
      geoDist (longitude, latitude) row.location ≤ radiusInKm * 1000 ∧
      (∃ b ∈ db.buses, b.id = row.busId ∧ b.status = "active") ∧
      (∃ rec ∈ db.locations, rec.busId = row.busId ∧
        rec.coordinates = row.location ∧ rec.timestamp = row.timestamp) ∧
      ∀ rec ∈ db.locations, rec.busId = row.busId →
        geoDist (longitude, latitude) rec.coordinates ≤ radiusInKm * 1000 →
        rec.timestamp ≤ row.timestamp := by
  unfold getBusesNearLocation at h
  split_ifs at h
  dsimp only at h
  have hrows := Except.ok.inj h
  subst hrows
  set matched := db.locations.filter
    (fun r => geoDist (longitude, latitude) r.coordinates ≤
      radiusInKm * 1000) with hmatched
  have hperm := List.perm_insertionSort distAsc
    ((nearbyJoin db (groupLatestByBus matched)).map
      (nearbyProject geoDist (longitude, latitude)))
  constructor
  · have h1 := groupLatestByBus_nodup matched
    have h2 : ((nearbyJoin db (groupLatestByBus matched)).map
        (fun p => p.1.busId)).Nodup := nearbyJoin_nodup h1
    have h3 : (((nearbyJoin db (groupLatestByBus matched)).map
        (nearbyProject geoDist (longitude, latitude))).map
        (fun row => row.busId)).Nodup := by
      rw [List.map_map]
      exact h2
    exact (List.Perm.nodup_iff (hperm.map (fun row => row.busId))).mpr h3
  · intro row hrow
    have hrow0 := hperm.mem_iff.mp hrow
    rcases List.mem_map.mp hrow0 with ⟨p, hp, hmk⟩
    have hj := nearbyJoin_mem hp
    have hrloc : row.location = p.1.coordinates := by rw [← hmk]; rfl
    have hrid : row.busId = p.1.busId := by rw [← hmk]; rfl
    have hrts : row.timestamp = p.1.timestamp := by rw [← hmk]; rfl
    have hspec := groupLatestByBus_spec hj.1
    have hrmem : p.1 ∈ db.locations ∧
        geoDist (longitude, latitude) p.1.coordinates ≤
          radiusInKm * 1000 := by
      have hfl := List.mem_filter.mp (hmatched ▸ hspec.1)
      exact ⟨hfl.1, of_decide_eq_true hfl.2⟩
    refine ⟨?_, ?_, ?_, ?_⟩
    · rw [hrloc]
      exact hrmem.2
    · exact ⟨p.2, hj.2.1, by rw [hrid]; exact hj.2.2.1, hj.2.2.2⟩
    · exact ⟨p.1, hrmem.1, hrid.symm, hrloc.symm, hrts.symm⟩
    · intro rec hrec hrecid hrecdist
      have hrecmatch : rec ∈ matched := by
        rw [hmatched]
        exact List.mem_filter.mpr ⟨hrec, decide_eq_true hrecdist⟩
      rw [hrts]
      exact hspec.2 rec hrecmatch (by rw [← hrid]; exact hrecid)

/-- Witness for C5 (amended): the `dbNear` run returns one row with a
distinct bus id. -/
theorem C5_nearby_rows_witness :
    getBusesNearLocation fixedDist 0 0 5 dbNear = .ok [rowNear] ∧
    ([rowNear].map (fun row => row.busId)).Nodup :=
  ⟨nearby_eval_one,
    (C5_nearby_rows fixedDist 0 0 5 dbNear [rowNear] nearby_eval_one).1⟩

end RouteSync
